import Mathlib

/-!
Shallow embedding of the beam/distribution core of the `zgoubidoo` repository
(files `zgoubidoo/commands/beam.py` and `zgoubidoo/commands/objet.py`):
distribution initialization, population slicing (`Beam.active_slice`),
sweep-mapping generation (`Beam.mappings`), Twiss-to-covariance construction
(`Beam.from_twiss_parameters` / `generate_from_5d_sigma_matrix`), and the
`Objet2` population store (`PARTICULES`, `clear`, `add`).

Numeric values are modelled as rationals; pandas `DataFrame`s as labelled
tables (a list of column names plus a list of rows); raised Python exceptions
as `Except.error` with a descriptive message.
-/

/-- A labelled table: the embedding of a `pandas.DataFrame` (column labels plus
rows of numeric values). -/
structure LTable where
  columns : List String
  rows : List (List ℚ)
deriving DecidableEq, Repr

/-- Error message of `ZgoubidooBeamException` raised by
`Beam._initialize_distribution` on an empty distribution (beam.py line 99). -/
def emptyDistributionError : String :=
  "Trying to initialize a beam distribution with invalid number of particles."

/-- Error message standing for the `ValueError` pandas raises when a column
list of the wrong length is assigned (in `Beam.active_slice`, line 135). -/
def lengthMismatchError : String :=
  "Length mismatch: expected a 5-column distribution"

/-- Error message standing for Python's `ZeroDivisionError` (raised by
`n_tot / self._slices` when the slice count is 0). -/
def zeroDivisionError : String := "ZeroDivisionError"

/-- The row window `iloc[SLICE * n_per : (SLICE + 1) * n_per]` computed by
`Beam.active_slice` (beam.py line 134), with `n_per = floor(n_tot / slices)`:
rows of the distribution with index in `[i * n_per, (i+1) * n_per)`. -/
def sliceWindow (rows : List (List ℚ)) (slices i : Nat) : List (List ℚ) :=
  (rows.take ((i + 1) * (rows.length / slices))).drop (i * (rows.length / slices))

/-- Embedding of the `Beam.active_slice` property (beam.py lines 120-139).
`dist` is `self._distribution` (`none` = Python `None`, caught as a
`TypeError` and turned into a `None` result), `slices` is `self._slices`,
`i` is `self.SLICE`.  The code slices `iloc[i*n_per:(i+1)*n_per]`, then
assigns the 5 coordinate labels as columns (which raises when the
distribution's column count is not 5), then returns `None` when the window
is empty and the relabelled window otherwise. -/
def active_slice (dist : Option LTable) (slices i : Nat) :
    Except String (Option LTable) :=
  match dist with
  | none => Except.ok none
  | some t =>
    if slices = 0 then Except.error zeroDivisionError
    else
      let d := sliceWindow t.rows slices i
      if t.columns.length = 5 then
        if d.length = 0 then Except.ok none
        else Except.ok (some ⟨["Y", "T", "Z", "P", "D"], d⟩)
      else Except.error lengthMismatchError

/-- Concatenating the `d`-sized windows at offsets `0, d, 2d, …` recovers a
prefix of the list: the core of the slicing partition law. -/
theorem join_sliceWindows (l : List (List ℚ)) (d : Nat) :
    ∀ k : Nat, ((List.range k).map (fun i => (l.drop (i * d)).take d)).flatten
      = l.take (k * d) := by
  intro k
  induction k with
  | zero => simp
  | succ k ih =>
      rw [List.range_succ, List.map_append, List.flatten_append, ih,
        Nat.succ_mul, List.take_add]
      simp

/-- Each slice window equals the contiguous `take`/`drop` window. -/
theorem sliceWindow_eq_drop_take (rows : List (List ℚ)) (k i : Nat) :
    sliceWindow rows k i
      = (rows.drop (i * (rows.length / k))).take (rows.length / k) := by
  unfold sliceWindow
  rw [List.drop_take, Nat.succ_mul, Nat.add_sub_cancel_left]

/-- When `i < k` every slice window has exactly `floor(n_tot / k)` rows. -/
theorem sliceWindow_length_of_lt (rows : List (List ℚ)) (k i : Nat) (h : i < k) :
    (sliceWindow rows k i).length = rows.length / k := by
  have h2 : (i + 1) * (rows.length / k) ≤ rows.length :=
    le_trans (Nat.mul_le_mul_right _ h)
      (by rw [Nat.mul_comm]; exact Nat.div_mul_le_self _ _)
  rw [Nat.succ_mul] at h2
  rw [sliceWindow_eq_drop_take, List.length_take, List.length_drop]
  exact Nat.min_eq_left (Nat.le_sub_of_add_le (by rw [Nat.add_comm]; exact h2))

/-- When `i < k` the slice window is a window of the first
`k * floor(n_tot / k)` rows: the remainder rows appear in no slice. -/
theorem sliceWindow_within_first_rows (rows : List (List ℚ)) (k i : Nat) (h : i < k) :
    sliceWindow rows k i
      = ((rows.take (k * (rows.length / k))).drop (i * (rows.length / k))).take
          (rows.length / k) := by
  have hle : i * (rows.length / k) + rows.length / k ≤ k * (rows.length / k) := by
    rw [← Nat.succ_mul]
    exact Nat.mul_le_mul_right _ h
  rw [sliceWindow_eq_drop_take, List.drop_take, List.take_take]
  congr 1
  omega

/-- Unfolding of `active_slice` on a 5-column distribution with a positive
slice count: slice, relabel, and return `none` exactly when the window is
empty. -/
theorem active_slice_of_five (cols : List String) (rows : List (List ℚ))
    (k i : Nat) (hcols : cols.length = 5) (hk : k ≠ 0) :
    active_slice (some ⟨cols, rows⟩) k i =
      Except.ok (if (sliceWindow rows k i).length = 0 then none
        else some ⟨["Y", "T", "Z", "P", "D"], sliceWindow rows k i⟩) := by
  simp only [active_slice]
  rw [if_neg hk, if_pos hcols]
  split <;> rfl

/-- C1: Slicing partition law. For a population of `M` rows (5 columns) and a
slice count `k ≥ 1`, with `n_per = floor(M / k)`: the active-slice view for
index `i < k` is exactly the row window `[i * n_per, (i+1) * n_per)` (as a
relabelled table, or `none` when empty); every window has `n_per` rows; the
concatenation of the `k` windows in index order is exactly the first
`k * n_per` rows; and every window is a sub-window of that prefix, so the
`M mod k` remainder rows appear in no slice and the windows are pairwise
disjoint row ranges. -/
theorem slicing_partition_law (cols : List String) (rows : List (List ℚ))
    (k : Nat) (hcols : cols.length = 5) (hk : 1 ≤ k) :
    (∀ i, i < k → active_slice (some ⟨cols, rows⟩) k i =
        Except.ok (if (sliceWindow rows k i).length = 0 then none
          else some ⟨["Y", "T", "Z", "P", "D"], sliceWindow rows k i⟩)) ∧
    (∀ i, i < k → (sliceWindow rows k i).length = rows.length / k) ∧
    ((List.range k).map (fun i => sliceWindow rows k i)).flatten
        = rows.take (k * (rows.length / k)) ∧
    (∀ i, i < k → sliceWindow rows k i
        = ((rows.take (k * (rows.length / k))).drop
            (i * (rows.length / k))).take (rows.length / k)) := by
  refine ⟨fun i _ => active_slice_of_five cols rows k i hcols (by omega),
    fun i hi => sliceWindow_length_of_lt rows k i hi, ?_,
    fun i hi => sliceWindow_within_first_rows rows k i hi⟩
  simpa only [sliceWindow_eq_drop_take] using
    join_sliceWindows rows (rows.length / k) k

/-- Witness for C1 at a concrete population: 5 rows, 2 slices, so
`n_per = 2`; slice 1 holds rows 2 and 3, the concatenated slices are the
first 4 rows and row 4 is left out. -/
theorem slicing_partition_law_witness :
    (["Y", "T", "Z", "P", "D"] : List String).length = 5 ∧ 1 ≤ 2 ∧
    active_slice (some ⟨["Y", "T", "Z", "P", "D"],
        [[(1 : ℚ)], [2], [3], [4], [5]]⟩) 2 1
      = Except.ok (some ⟨["Y", "T", "Z", "P", "D"], [[3], [4]]⟩) ∧
    sliceWindow [[(1 : ℚ)], [2], [3], [4], [5]] 2 0
        ++ sliceWindow [[(1 : ℚ)], [2], [3], [4], [5]] 2 1
      = [[1], [2], [3], [4]] := by
  have h := slicing_partition_law ["Y", "T", "Z", "P", "D"]
    [[(1 : ℚ)], [2], [3], [4], [5]] 2 rfl (by decide)
  refine ⟨rfl, by decide, ?_, ?_⟩
  · rw [h.1 1 (by decide)]
    rfl
  · have hj := h.2.2.1
    simp only [List.range, List.range.loop, List.map, List.flatten] at hj
    simpa using hj

/-- C7 (amended): for a population with exactly 5 columns and a slice count
`k ≥ 1`, the active-slice view returns `none` (not an error) when the
computed window is empty, and otherwise a table whose columns are exactly
the 5 semantic coordinate names (Y, T, Z, P, D).  Populations with a
different column count are not supported: the relabelling step errors
instead of dropping the extra columns. -/
theorem active_slice_view_shape (cols : List String) (rows : List (List ℚ))
    (k i : Nat) (hcols : cols.length = 5) (hk : 1 ≤ k) :
    (sliceWindow rows k i = [] →
      active_slice (some ⟨cols, rows⟩) k i = Except.ok none) ∧
    (sliceWindow rows k i ≠ [] → ∃ t : LTable,
      active_slice (some ⟨cols, rows⟩) k i = Except.ok (some t) ∧
      t.columns = ["Y", "T", "Z", "P", "D"] ∧
      t.rows = sliceWindow rows k i) := by
  have h := active_slice_of_five cols rows k i hcols (by omega)
  constructor
  · intro he
    rw [h, he]
    rfl
  · intro hne
    refine ⟨⟨["Y", "T", "Z", "P", "D"], sliceWindow rows k i⟩, ?_, rfl, rfl⟩
    rw [h, if_neg (by simpa [List.length_eq_zero] using hne)]

/-- Witness for C7 (amended): one row, two slices, so the window is empty and
the view is `none`; with one slice the full window comes back relabelled. -/
theorem active_slice_view_shape_witness :
    active_slice (some ⟨["A", "B", "C", "E", "F"], [[(7 : ℚ)]]⟩) 2 0
        = Except.ok none ∧
    active_slice (some ⟨["A", "B", "C", "E", "F"], [[(7 : ℚ)]]⟩) 1 0
        = Except.ok (some ⟨["Y", "T", "Z", "P", "D"], [[7]]⟩) := by
  constructor
  · exact (active_slice_view_shape ["A", "B", "C", "E", "F"] [[(7 : ℚ)]]
      2 0 rfl (by decide)).1 rfl
  · obtain ⟨t, ht, hc, hr⟩ := (active_slice_view_shape ["A", "B", "C", "E", "F"]
      [[(7 : ℚ)]] 1 0 rfl (by decide)).2 (by decide)
    rw [ht]
    cases t
    simp only at hc hr
    rw [hc, hr]
    rfl

/-- C7 counterexample: on a 7-column population (the internal layout with X,
D and IEX present) the active-slice view does not drop the extra columns and
does not return a successful result at all: the column relabelling raises a
length-mismatch error. -/
theorem active_slice_seven_columns_error :
    active_slice (some ⟨["Y", "T", "Z", "P", "X", "D", "IEX"],
        [[0, 0, 0, 0, 0, 1, 1]]⟩) 1 0 = Except.error lengthMismatchError ∧
    (active_slice (some ⟨["Y", "T", "Z", "P", "X", "D", "IEX"],
        [[0, 0, 0, 0, 0, 1, 1]]⟩) 1 0).toOption = none := ⟨rfl, rfl⟩

deriving instance DecidableEq for Except

/-- Error message standing for the `ValueError` numpy raises from
`np.append(..., axis=0)` when the two blocks do not have the same number of
columns. -/
def valueErrorMismatch : String :=
  "ValueError: all the input array dimensions except for the concatenation axis must match exactly"

/-- An argument to `Objet2.add`: either a bare numeric block (an object with
no `columns` attribute, e.g. a numpy array) or a labelled table (a
`pandas.DataFrame`). -/
inductive AddInput where
  | raw (a : List (List ℚ))
  | table (t : LTable)
deriving DecidableEq

/-- The column count of a rectangular numeric block; `none` when the block is
empty or ragged (standing for an object numpy cannot treat as an `(n, w)`
array). -/
def rectWidth (a : List (List ℚ)) : Option Nat :=
  match a with
  | [] => none
  | r :: rs => if rs.all (fun s => s.length = r.length) then some r.length else none

/-- Embedding of `np.append(a, b, axis=0)`: row-wise concatenation, a
`ValueError` when the column counts differ. -/
def npAppend (a b : List (List ℚ)) : Except String (List (List ℚ)) :=
  match rectWidth a, rectWidth b with
  | some wa, some wb =>
      if wa = wb then Except.ok (a ++ b) else Except.error valueErrorMismatch
  | _, _ => Except.error valueErrorMismatch

/-- The normalization branch of `Objet2.add` (objet.py lines 163-168) for one
(Y, T, Z, P, D) row: insert `X = 0.0`, shift `D` by `+1.0`, append
`IEX = 1.0`, and reorder to the internal (Y, T, Z, P, X, D, IEX) layout. -/
def normalizeRow (r : List ℚ) : List ℚ :=
  [r.getD 0 0, r.getD 1 0, r.getD 2 0, r.getD 3 0, 0, r.getD 4 0 + 1, 1]

/-- Normalization of a whole (Y, T, Z, P, D) table into the 7-column
internal layout. -/
def normalizeTable (t : LTable) : List (List ℚ) := t.rows.map normalizeRow

/-- Embedding of `Objet2.add` (objet.py lines 151-171).  The store state is
`self._PARTICULES` (`none` = unset).  When the store is unset: a bare block
is stored verbatim; a labelled table is normalized when its column list is
exactly `['Y', 'T', 'Z', 'P', 'D']` and silently ignored otherwise.  When
the store already holds a population, the argument is `np.append`-ed raw. -/
def Objet2.add (st : Option (List (List ℚ))) (p : AddInput) :
    Except String (Option (List (List ℚ))) :=
  match st with
  | none =>
    match p with
    | .raw a => Except.ok (some a)
    | .table t =>
        if t.columns = ["Y", "T", "Z", "P", "D"] then
          Except.ok (some (normalizeTable t))
        else Except.ok none
  | some pop =>
    match p with
    | .raw a => (npAppend pop a).map some
    | .table t => (npAppend pop t.rows).map some

/-- Embedding of the `Objet2.PARTICULES` property (objet.py lines 132-140):
reading an unset store lazily materializes the default single all-zero row
with `D = 1.0` and `IEX = 1.0`.  (The Python-list reshape branch concerns
flat-list states that the block/table input domain of this embedding never
produces.) -/
def Objet2.PARTICULES (st : Option (List (List ℚ))) : List (List ℚ) :=
  match st with
  | none => [[0, 0, 0, 0, 0, 1, 1]]
  | some p => p

/-- Embedding of `Objet2.clear` (objet.py lines 142-145): reset the store to
its unset state. -/
def Objet2.clear (_st : Option (List (List ℚ))) : Option (List (List ℚ)) :=
  none

/-- C2 (amended): only when the store is empty is a foreign
(Y, T, Z, P, D) table normalized into the internal 7-column layout; when the
store already holds a population, `add` concatenates the argument raw
without normalization, which for a 5-column table fails with a numpy
dimension-mismatch error. -/
theorem add_normalizes_only_when_empty (t : LTable) (pop : List (List ℚ))
    (hc : t.columns = ["Y", "T", "Z", "P", "D"])
    (hpop : rectWidth pop = some 7) (ht : rectWidth t.rows = some 5) :
    Objet2.add none (AddInput.table t) = Except.ok (some (normalizeTable t)) ∧
    Objet2.add (some pop) (AddInput.table t)
      = Except.error valueErrorMismatch := by
  constructor
  · simp only [Objet2.add]
    rw [if_pos hc]
  · simp only [Objet2.add, npAppend, hpop, ht]
    rw [if_neg (by decide)]
    rfl

/-- Witness for C2 (amended): a one-row (Y, T, Z, P, D) table is normalized
into an empty store but errors against a store holding the default row. -/
theorem add_normalizes_only_when_empty_witness :
    Objet2.add none
        (AddInput.table ⟨["Y", "T", "Z", "P", "D"], [[5, 6, 7, 8, 9]]⟩)
      = Except.ok (some [[5, 6, 7, 8, 0, 10, 1]]) ∧
    Objet2.add (some [[0, 0, 0, 0, 0, 1, 1]])
        (AddInput.table ⟨["Y", "T", "Z", "P", "D"], [[5, 6, 7, 8, 9]]⟩)
      = Except.error valueErrorMismatch := by
  have h := add_normalizes_only_when_empty
    ⟨["Y", "T", "Z", "P", "D"], [[5, 6, 7, 8, 9]]⟩ [[0, 0, 0, 0, 0, 1, 1]]
    rfl (by decide) (by decide)
  exact ⟨h.1.trans (by norm_num [normalizeTable, normalizeRow]), h.2⟩

/-- C2 counterexample: appending a foreign (Y, T, Z, P, D) table to a store
that already holds a population is not normalized-then-concatenated; it
raises a dimension-mismatch error instead. -/
theorem add_table_to_nonempty_store_errors :
    Objet2.add (some [[0, 0, 0, 0, 0, 1, 1]])
        (AddInput.table ⟨["Y", "T", "Z", "P", "D"], [[1, 2, 3, 4, 1/2]]⟩)
      = Except.error valueErrorMismatch ∧
    Objet2.add (some [[0, 0, 0, 0, 0, 1, 1]])
        (AddInput.table ⟨["Y", "T", "Z", "P", "D"], [[1, 2, 3, 4, 1/2]]⟩)
      ≠ Except.ok (some ([[0, 0, 0, 0, 0, 1, 1]] ++
          normalizeTable ⟨["Y", "T", "Z", "P", "D"], [[1, 2, 3, 4, 1/2]]⟩)) := by
  have he : Objet2.add (some [[0, 0, 0, 0, 0, 1, 1]])
      (AddInput.table ⟨["Y", "T", "Z", "P", "D"], [[1, 2, 3, 4, 1/2]]⟩)
      = Except.error valueErrorMismatch := rfl
  refine ⟨he, fun h => ?_⟩
  rw [he] at h
  exact Except.noConfusion h

/-- C3: appending a (Y, T, Z, P, D) table with the single row
`[1, 2, 3, 4, 0.5]` to an empty store yields exactly the 7-column row
`[1, 2, 3, 4, 0, 1.5, 1]`: X inserted as 0, D shifted by +1 to 1.5, IEX set
to 1. -/
theorem foreign_five_column_ingestion :
    Objet2.add none (AddInput.table ⟨["Y", "T", "Z", "P", "D"],
        [[1, 2, 3, 4, 1/2]]⟩)
      = Except.ok (some [[1, 2, 3, 4, 0, 3/2, 1]]) := by
  norm_num [Objet2.add, normalizeTable, normalizeRow]

/-- C9: `clear` returns the store to its unset state, and reading an unset
store (in particular right after `clear`) materializes exactly one default
row: all-zero coordinates except `D = 1.0` and `IEX = 1.0`, so a reader
never observes an unset population. -/
theorem clear_then_lazy_default (st : Option (List (List ℚ))) :
    Objet2.clear st = none ∧
    Objet2.PARTICULES (Objet2.clear st) = [[0, 0, 0, 0, 0, 1, 1]] ∧
    (Objet2.PARTICULES (Objet2.clear st)).length = 1 ∧
    Objet2.PARTICULES none = [[0, 0, 0, 0, 0, 1, 1]] :=
  ⟨rfl, rfl, rfl, rfl⟩

/-- C10: a labelled table whose column list is not exactly
`['Y', 'T', 'Z', 'P', 'D']` is silently discarded by `add` on an empty
store: no error, the store stays unset, and a subsequent read yields the
lazy default row instead of the supplied data. -/
theorem add_mismatched_columns_discarded (t : LTable)
    (h : t.columns ≠ ["Y", "T", "Z", "P", "D"]) :
    Objet2.add none (AddInput.table t) = Except.ok none ∧
    Objet2.PARTICULES none = [[0, 0, 0, 0, 0, 1, 1]] := by
  constructor
  · simp only [Objet2.add]
    rw [if_neg h]
  · rfl

/-- Witness for C10: a table with the five coordinate columns in a different
order is dropped. -/
theorem add_mismatched_columns_discarded_witness :
    Objet2.add none
        (AddInput.table ⟨["T", "Y", "Z", "P", "D"], [[1, 2, 3, 4, 5]]⟩)
      = Except.ok none ∧
    Objet2.PARTICULES none = [[0, 0, 0, 0, 0, 1, 1]] :=
  add_mismatched_columns_discarded
    ⟨["T", "Y", "Z", "P", "D"], [[1, 2, 3, 4, 5]]⟩ (by decide)

/-- Embedding of `Beam._initialize_distribution` (beam.py lines 82-99) on the
path where a distribution is supplied: store it, then raise
`ZgoubidooBeamException` when it has zero rows. -/
def initialize_distribution (distribution : List (List ℚ)) :
    Except String (List (List ℚ)) :=
  if distribution.length = 0 then Except.error emptyDistributionError
  else Except.ok distribution

/-- Embedding of `Beam.generate_from_file` (beam.py lines 248-261):
`pd.read_csv(...)[:n]` keeps the first `n` rows when `n` is given and all
rows when `n` is `None`; `csvRows` stands for the parsed file content. -/
def generate_from_file (csvRows : List (List ℚ)) (n : Option Nat) :
    List (List ℚ) :=
  match n with
  | none => csvRows
  | some k => csvRows.take k

/-- Embedding of `Beam.from_file` (beam.py lines 182-194): load, then run the
empty-distribution check. -/
def from_file (csvRows : List (List ℚ)) (n : Option Nat) :
    Except String (List (List ℚ)) :=
  initialize_distribution (generate_from_file csvRows n)

/-- Embedding of `Beam.from_5d_sigma_matrix` (beam.py lines 196-209): the
multivariate-normal sampler is abstracted as `gen`; its defining contract is
that `gen n` returns `n` sample rows.  The sampled block is handed to the
empty-distribution check. -/
def from_5d_sigma_matrix (gen : Nat → List (List ℚ)) (n : Nat) :
    Except String (List (List ℚ)) :=
  initialize_distribution (gen n)

/-- A deterministic stand-in sampler satisfying the multivariate-normal
sampler contract: `n` rows of 5 zero coordinates. -/
def zeroSampler (n : Nat) : List (List ℚ) :=
  List.replicate n [0, 0, 0, 0, 0]

/-- The empty-distribution check fires exactly on an empty population. -/
theorem initialize_distribution_error_iff (d : List (List ℚ)) :
    initialize_distribution d = Except.error emptyDistributionError ↔ d = [] := by
  unfold initialize_distribution
  rcases eq_or_ne d [] with rfl | hne
  · simp
  · rw [if_neg (by simpa [List.length_eq_zero] using hne)]
    simp [hne]

/-- C4: every synthesis or load path that produces a zero-row population
raises the empty-distribution error, and only then: synthesis errors exactly
when `n = 0`, a load trimmed to `n` rows errors exactly when `n = 0` or the
source is empty, and an untrimmed load errors exactly when the source is
empty.  The check runs immediately after construction, before the
distribution is returned for any further use. -/
theorem empty_distribution_check (gen : Nat → List (List ℚ))
    (csvRows : List (List ℚ)) (n : Nat) (hgen : (gen n).length = n) :
    (from_5d_sigma_matrix gen n = Except.error emptyDistributionError ↔
      n = 0) ∧
    (from_file csvRows (some n) = Except.error emptyDistributionError ↔
      n = 0 ∨ csvRows = []) ∧
    (from_file csvRows none = Except.error emptyDistributionError ↔
      csvRows = []) := by
  refine ⟨?_, ?_, ?_⟩
  · rw [from_5d_sigma_matrix, initialize_distribution_error_iff]
    constructor
    · intro h
      rw [h] at hgen
      simpa using hgen.symm
    · intro h
      subst h
      exact List.length_eq_zero.mp hgen
  · rw [from_file, generate_from_file, initialize_distribution_error_iff]
    exact List.take_eq_nil_iff
  · rw [from_file, generate_from_file, initialize_distribution_error_iff]

/-- Witness for C4: the zero sampler at `n = 0`, a 1-row source trimmed to 0
rows, and an empty source, all raise the empty-distribution error. -/
theorem empty_distribution_check_witness :
    (zeroSampler 0).length = 0 ∧
    from_5d_sigma_matrix zeroSampler 0 = Except.error emptyDistributionError ∧
    from_file [[(1 : ℚ), 2, 3, 4, 5]] (some 0)
      = Except.error emptyDistributionError ∧
    from_file [] none = Except.error emptyDistributionError := by
  have h1 := empty_distribution_check zeroSampler [[(1 : ℚ), 2, 3, 4, 5]] 0 rfl
  have h2 := empty_distribution_check zeroSampler [] 0 rfl
  exact ⟨rfl, h1.1.mpr rfl, h1.2.1.mpr (Or.inl rfl), h2.2.2.mpr rfl⟩

/-- Modelled from the spec: `ParametricMapping.combinations` (module
`zgoubidoo.input`, imported by beam.py but not under `src/`).  The expansion
of a mapping set is the Cartesian product of its axes in axis-registration
order, row-major within each axis's listed value order; each element is a
single-assignment mapping from axis name to one value. -/
def combinations (axes : List (String × List Int)) :
    List (List (String × Int)) :=
  match axes with
  | [] => [[]]
  | (name, vals) :: rest =>
      (vals.map (fun v => (combinations rest).map (fun m => (name, v) :: m))).flatten

/-- Embedding of the `Beam.mappings` property (beam.py lines 153-165): when
`REFERENCE == 1` the result is the single mapping `{LABEL1.REFERENCE: 1}`;
otherwise it is the expansion of the single axis
`{LABEL1.SLICE: range(0, slices)}`. -/
def mappings (label1 : String) (reference : Int) (slices : Nat) :
    List (List (String × Int)) :=
  if reference = 1 then [[(label1 ++ ".REFERENCE", 1)]]
  else combinations [(label1 ++ ".SLICE", (List.range slices).map Int.ofNat)]

/-- Expansion of a single axis: one singleton mapping per value, in listed
order. -/
theorem combinations_single_axis (name : String) (vals : List Int) :
    combinations [(name, vals)] = vals.map (fun v => [(name, v)]) := by
  induction vals with
  | nil => rfl
  | cons v vs ih =>
      simp only [combinations, List.map_cons, List.flatten_cons] at ih ⊢
      rw [ih]
      rfl

/-- C5: reference-mode short-circuit.  With the reference flag set to 1 the
mapping expansion is exactly the one-element list holding the
single-assignment mapping `{LABEL1.REFERENCE: 1}`, for every slice count;
otherwise it is one `{LABEL1.SLICE: i}` mapping per slice index `i` in
`[0, slices)`, in index order. -/
theorem mappings_reference_short_circuit (label1 : String) (slices : Nat)
    (reference : Int) :
    (reference = 1 → mappings label1 reference slices
        = [[(label1 ++ ".REFERENCE", 1)]]) ∧
    (reference ≠ 1 → mappings label1 reference slices
        = (List.range slices).map
            (fun i : Nat => [(label1 ++ ".SLICE", (i : Int))])) := by
  constructor
  · intro h
    rw [mappings, if_pos h]
  · intro h
    rw [mappings, if_neg h, combinations_single_axis, List.map_map]
    rfl

/-- Witness for C5: label `B1` with 3 slices, in reference mode and not. -/
theorem mappings_reference_short_circuit_witness :
    mappings "B1" 1 3 = [[("B1.REFERENCE", 1)]] ∧
    mappings "B1" 0 3
      = [[("B1.SLICE", 0)], [("B1.SLICE", 1)], [("B1.SLICE", 2)]] := by
  refine ⟨(mappings_reference_short_circuit "B1" 3 1).1 rfl, ?_⟩
  rw [(mappings_reference_short_circuit "B1" 3 0).2 (by decide)]
  rfl

/-- Error message of `ZgoubidooBeamException` raised by
`Beam.from_twiss_parameters` on an unrecognized keyword (beam.py line 224). -/
def invalidTwissError : String := "Invalid argument for a twiss distribution."

/-- Error message standing for Python's `KeyError` from the mandatory
`kwargs['EMITX']` / `kwargs['EMITY']` lookups. -/
def keyErrorEmit : String := "KeyError: EMITX or EMITY"

/-- The fixed accepted keyword set of `Beam.from_twiss_parameters`
(beam.py line 222). -/
def twissKeys : List String :=
  ["X", "PX", "Y", "PY", "DPP", "DPPRMS",
   "BETAX", "ALPHAX", "BETAY", "ALPHAY", "EMITX", "EMITY"]

/-- Embedding of the covariance assembly of `Beam.generate_from_5d_sigma_matrix`
(beam.py lines 325-353): the upper-triangle entries are mirrored into the
lower triangle (`s21 = s12`, …) and `dpprms ** 2` is placed at entry (5, 5). -/
def sigma_matrix (s11 s12 s13 s14 s15 s22 s23 s24 s25 s33 s34 s35 s44 s45
    dpprms : ℚ) : List (List ℚ) :=
  [[s11, s12, s13, s14, s15],
   [s12, s22, s23, s24, s25],
   [s13, s23, s33, s34, s35],
   [s14, s24, s34, s44, s45],
   [s15, s25, s35, s45, dpprms ^ 2]]

/-- Embedding of `Beam.from_twiss_parameters` (beam.py lines 211-246): the
keyword names are validated against `twissKeys` first; then per-plane
`gamma = (1 + alpha^2) / beta` is formed and the sigma-matrix entries
`s11 = beta_x*emit_x`, `s12 = -alpha_x*emit_x`, `s22 = gamma_x*emit_x` (and
the y-plane analogues at s33/s34/s44) are handed to the 5d-sigma-matrix
construction.  The result is the mean vector and the assembled covariance
matrix (the sampling step itself is external randomness). -/
def from_twiss_parameters (kwargs : List (String × ℚ)) :
    Except String (List ℚ × List (List ℚ)) :=
  if kwargs.any (fun p => !(twissKeys.contains p.1)) then
    Except.error invalidTwissError
  else
    match List.lookup "EMITX" kwargs, List.lookup "EMITY" kwargs with
    | some emitx, some emity =>
      let betax := (List.lookup "BETAX" kwargs).getD 1
      let alphax := (List.lookup "ALPHAX" kwargs).getD 0
      let gammax := (1 + alphax ^ 2) / betax
      let betay := (List.lookup "BETAY" kwargs).getD 1
      let alphay := (List.lookup "ALPHAY" kwargs).getD 0
      let gammay := (1 + alphay ^ 2) / betay
      Except.ok
        ([(List.lookup "X" kwargs).getD 0, (List.lookup "PX" kwargs).getD 0,
          (List.lookup "Y" kwargs).getD 0, (List.lookup "PY" kwargs).getD 0,
          (List.lookup "DPP" kwargs).getD 0],
         sigma_matrix (betax * emitx) (-alphax * emitx) 0 0 0
           (gammax * emitx) 0 0 0 (betay * emity) (-alphay * emity) 0
           (gammay * emity) 0 ((List.lookup "DPPRMS" kwargs).getD 0))
    | _, _ => Except.error keyErrorEmit

/-- Entry (i, j) of an assembled matrix. -/
def matEntry (m : List (List ℚ)) (i j : Nat) : ℚ := (m.getD i []).getD j 0

/-- C6: for the Twiss parameters `BETAX = 2`, `ALPHAX = 0`,
`EMITX = 1e-6` (and the analogous Y-plane values), the built covariance
matrix has `(X, X)` entry `beta_x * emit_x = 2e-6`, `(PX, PX)` entry
`(1 + alpha_x^2) / beta_x * emit_x = 0.5e-6`, and `(X, PX)` entry
`-alpha_x * emit_x = 0`. -/
theorem twiss_covariance_entries :
    (from_twiss_parameters
        [("BETAX", 2), ("ALPHAX", 0), ("EMITX", 1/1000000),
         ("BETAY", 2), ("ALPHAY", 0), ("EMITY", 1/1000000)]).map
      (fun r => (matEntry r.2 0 0, matEntry r.2 1 1, matEntry r.2 0 1))
    = Except.ok (2/1000000, 1/2000000, 0) := by
  have h : (from_twiss_parameters
        [("BETAX", 2), ("ALPHAX", 0), ("EMITX", 1/1000000),
         ("BETAY", 2), ("ALPHAY", 0), ("EMITY", 1/1000000)]).map
      (fun r => (matEntry r.2 0 0, matEntry r.2 1 1, matEntry r.2 0 1))
      = Except.ok (2 * (1/1000000), (1 + 0 ^ 2) / 2 * (1/1000000),
          -0 * (1/1000000)) := rfl
  rw [h]
  norm_num

/-- C8: a keyword set holding at least one name outside the fixed accepted
set (X, PX, Y, PY, DPP, DPPRMS, BETAX/ALPHAX/EMITX, BETAY/ALPHAY/EMITY)
makes the Twiss construction fail with the invalid-argument error before any
covariance is assembled. -/
theorem invalid_twiss_argument_raises (kwargs : List (String × ℚ))
    (h : ∃ p ∈ kwargs, p.1 ∉ twissKeys) :
    from_twiss_parameters kwargs = Except.error invalidTwissError := by
  unfold from_twiss_parameters
  rw [if_pos]
  rw [List.any_eq_true]
  obtain ⟨p, hp, hn⟩ := h
  exact ⟨p, hp, by simp [hn]⟩

/-- Witness for C8: the unrecognized keyword `FOO` raises. -/
theorem invalid_twiss_argument_raises_witness :
    (∃ p ∈ [(("FOO" : String), (1 : ℚ))], p.1 ∉ twissKeys) ∧
    from_twiss_parameters [("FOO", 1)] = Except.error invalidTwissError := by
  have h : ∃ p ∈ [(("FOO" : String), (1 : ℚ))], p.1 ∉ twissKeys :=
    ⟨("FOO", 1), List.mem_singleton.mpr rfl, by decide⟩
  exact ⟨h, invalid_twiss_argument_raises [("FOO", 1)] h⟩
